import Mathlib

/-!
Shallow embedding of the mood-sentinel alert pipeline.

The Python sources are translated as follows: floats become rationals,
`datetime` values become integer minutes (a calendar date is the floor of the
minute count by 1440), SQL tables become lists of row structures, and an SQL
`UPDATE`/`SELECT` becomes an explicit pure function on the row list.  An SQL
`ORDER BY` and Python `sorted` are modelled by a stable insertion sort over a
boolean comparator.
-/

namespace MoodSentinel

/-- Stable insertion used to model an ORDER BY / sorted() step: `x` is placed
after every element `y` with `le y x = true`. -/
def insertLe {α : Type} (le : α → α → Bool) (x : α) : List α → List α
  | [] => [x]
  | y :: ys => if le y x then y :: insertLe le x ys else x :: y :: ys

/-- Stable sort by the boolean comparator `le`: elements are inserted left to
right, each after all already-placed elements that compare at-or-before it. -/
def sortLe {α : Type} (le : α → α → Bool) (l : List α) : List α :=
  l.foldl (fun acc x => insertLe le x acc) []

theorem insertLe_perm {α : Type} (le : α → α → Bool) (x : α) (l : List α) :
    (insertLe le x l).Perm (x :: l) := by
  induction l with
  | nil => simp [insertLe]
  | cons y ys ih =>
    simp only [insertLe]
    split
    · exact (ih.cons y).trans (List.Perm.swap x y ys)
    · exact List.Perm.refl _

theorem sortLe_aux_perm {α : Type} (le : α → α → Bool) :
    ∀ (l acc : List α),
      (l.foldl (fun acc x => insertLe le x acc) acc).Perm (acc ++ l)
  | [], acc => by simp
  | x :: xs, acc => by
    simp only [List.foldl_cons]
    refine (sortLe_aux_perm le xs (insertLe le x acc)).trans ?_
    refine (((insertLe_perm le x acc).append_right xs).trans ?_)
    simpa using List.perm_middle.symm

theorem sortLe_perm {α : Type} (le : α → α → Bool) (l : List α) :
    (sortLe le l).Perm l := by
  simpa [sortLe] using sortLe_aux_perm le l []

theorem mem_insertLe {α : Type} (le : α → α → Bool) (x : α) (l : List α) (z : α)
    (hz : z ∈ insertLe le x l) : z = x ∨ z ∈ l := by
  have := (insertLe_perm le x l).mem_iff.mp hz
  simpa using this

theorem pairwise_insertLe {α : Type} (le : α → α → Bool)
    (htot : ∀ a b, le a b = true ∨ le b a = true)
    (htrans : ∀ a b c, le a b = true → le b c = true → le a c = true)
    (x : α) : ∀ l : List α, l.Pairwise (fun a b => le a b = true) →
      (insertLe le x l).Pairwise (fun a b => le a b = true)
  | [], _ => by simp [insertLe]
  | y :: ys, h => by
    simp only [insertLe]
    rcases List.pairwise_cons.mp h with ⟨hy, hys⟩
    by_cases hxy : le y x = true
    · rw [if_pos hxy]
      refine List.pairwise_cons.mpr ⟨?_, pairwise_insertLe le htot htrans x ys hys⟩
      intro z hz
      rcases mem_insertLe le x ys z hz with rfl | hzys
      · exact hxy
      · exact hy z hzys
    · rw [if_neg hxy]
      have hxylt : le x y = true := by
        rcases htot x y with h' | h'
        · exact h'
        · exact absurd h' hxy
      refine List.pairwise_cons.mpr ⟨?_, h⟩
      intro z hz
      rcases List.mem_cons.mp hz with rfl | hzys
      · exact hxylt
      · exact htrans x y z hxylt (hy z hzys)

theorem pairwise_sortLe_aux {α : Type} (le : α → α → Bool)
    (htot : ∀ a b, le a b = true ∨ le b a = true)
    (htrans : ∀ a b c, le a b = true → le b c = true → le a c = true) :
    ∀ (l acc : List α), acc.Pairwise (fun a b => le a b = true) →
      (l.foldl (fun acc x => insertLe le x acc) acc).Pairwise
        (fun a b => le a b = true)
  | [], _, h => h
  | x :: xs, acc, h =>
    pairwise_sortLe_aux le htot htrans xs (insertLe le x acc)
      (pairwise_insertLe le htot htrans x acc h)

theorem sortLe_pairwise {α : Type} (le : α → α → Bool)
    (htot : ∀ a b, le a b = true ∨ le b a = true)
    (htrans : ∀ a b c, le a b = true → le b c = true → le a c = true)
    (l : List α) : (sortLe le l).Pairwise (fun a b => le a b = true) :=
  pairwise_sortLe_aux le htot htrans l [] (by simp)

/-! Embedding of `src/rules.py`. -/

/-- Feature snapshot consumed by `RuleEngine.evaluate` (the keys the Python
code reads from the `features` dict). -/
structure Features where
  avg_sentiment : ℚ
  engagement_score : ℚ
  post_volume : ℚ
  avg_post_volume : ℚ
  crisis_keywords : List String
deriving DecidableEq

/-- Threshold configuration read in `RuleEngine.__init__`. -/
structure RuleConfig where
  sentiment_threshold : ℚ := -0.5
  engagement_threshold : ℚ := 0.2
  volume_spike_threshold : ℚ := 2
deriving DecidableEq

/-- Alert dict produced by `RuleEngine.evaluate`. -/
structure CandidateAlert where
  type : String
  severity : String
  timestamp : String
  summary : String
  actions : List String
deriving DecidableEq

/-- Alert appended when `avg_sentiment < sentiment_threshold` (rules.py 228-239). -/
def negativeSentimentAlert (now : String) (f : Features) : CandidateAlert :=
  { type := "NEGATIVE_SENTIMENT"
    severity := if f.avg_sentiment < -0.8 then "HIGH" else "MEDIUM"
    timestamp := now
    summary := "Negative sentiment detected: " ++ toString f.avg_sentiment
    actions := ["Monitor user closely for signs of distress",
                "Consider reaching out with support resources",
                "Track sentiment trends over time"] }

/-- Alert appended when `engagement_score < engagement_threshold` (rules.py 242-253). -/
def lowEngagementAlert (now : String) (f : Features) : CandidateAlert :=
  { type := "LOW_ENGAGEMENT"
    severity := "LOW"
    timestamp := now
    summary := "Low engagement detected: " ++ toString f.engagement_score
    actions := ["Monitor for social withdrawal patterns",
                "Check if user needs support or encouragement"] }

/-- Alert appended when `post_volume > avg_post_volume * volume_spike_threshold`
(rules.py 256-269). -/
def activitySpikeAlert (now : String) (f : Features) : CandidateAlert :=
  { type := "ACTIVITY_SPIKE"
    severity := "MEDIUM"
    timestamp := now
    summary := "Unusual activity spike: " ++ (toString f.post_volume ++
      (" posts (avg: " ++ (toString f.avg_post_volume ++ ")")))
    actions := ["Review recent posts for concerning content",
                "Check if spike indicates manic episode or crisis"] }

/-- Alert appended when `crisis_keywords` is non-empty (rules.py 272-285). -/
def crisisKeywordsAlert (now : String) (f : Features) : CandidateAlert :=
  { type := "CRISIS_KEYWORDS"
    severity := "CRITICAL"
    timestamp := now
    summary := "Crisis keywords detected: " ++
      String.intercalate ", " f.crisis_keywords
    actions := ["IMMEDIATE attention required",
                "Contact crisis intervention team",
                "Reach out to user directly",
                "Monitor continuously"] }

namespace RuleEngine

/-- Translation of `RuleEngine.evaluate` (rules.py 214-293): each of the four
independent rules appends at most one alert to the result list. -/
def evaluate (cfg : RuleConfig) (now : String) (f : Features) :
    List CandidateAlert :=
  (if f.avg_sentiment < cfg.sentiment_threshold
    then [negativeSentimentAlert now f] else []) ++
  (if f.engagement_score < cfg.engagement_threshold
    then [lowEngagementAlert now f] else []) ++
  (if f.post_volume > f.avg_post_volume * cfg.volume_spike_threshold
    then [activitySpikeAlert now f] else []) ++
  (if f.crisis_keywords = [] then [] else [crisisKeywordsAlert now f])

end RuleEngine

/-- Minutes are the unit of time; a calendar date is the floor by 1440, which
models `datetime.date()` equality. -/
def dateOf (t : Int) : Int := t.fdiv 1440

/-- Threshold configuration read in `MoodRules.__init__`. -/
structure MoodConfig where
  critical_threshold : ℚ := 0.2
  warning_threshold : ℚ := 0.4
  recovery_threshold : ℚ := 0.6
deriving DecidableEq

/-- Gate policy read in `MoodRules.__init__`: `alert_cooldown_hours` and
`max_alerts_per_day`. -/
structure GateConfig where
  alert_cooldown : Int := 2
  max_alerts_per_day : Nat := 5
deriving DecidableEq

/-- Result dict of `MoodRules.evaluate_mood_score` (the fields the gate reads,
plus message and recommendations). -/
structure MoodEvaluation where
  user_id : String
  mood_score : ℚ
  timestamp : Int
  alert_level : String
  action_required : Bool
  message : String
  recommendations : List String
deriving DecidableEq

/-- Entry of the `recent_alerts` history list consumed by
`MoodRules.should_send_alert`. -/
structure RecentAlert where
  user_id : String
  alert_level : String
  timestamp : Int
deriving DecidableEq

namespace MoodRules

/-- Recommendation list returned by `MoodRules._get_critical_recommendations`. -/
def criticalRecommendations : List String :=
  ["Consider reaching out to a mental health professional",
   "Contact a trusted friend or family member",
   "Use crisis helpline if feeling overwhelmed",
   "Practice grounding techniques (5-4-3-2-1 method)",
   "Ensure you are in a safe environment"]

/-- Recommendation list returned by `MoodRules._get_warning_recommendations`. -/
def warningRecommendations : List String :=
  ["Take a short break from current activities",
   "Practice deep breathing or meditation",
   "Go for a brief walk or light exercise",
   "Listen to calming music",
   "Consider talking to someone you trust"]

/-- Recommendation list returned by `MoodRules._get_positive_recommendations`. -/
def positiveRecommendations : List String :=
  ["Great job maintaining positive mood!",
   "Consider sharing your positive energy with others",
   "Take note of what is contributing to your good mood",
   "This might be a good time for creative activities"]

/-- Translation of `MoodRules.evaluate_mood_score` (rules.py 28-76). -/
def evaluate_mood_score (cfg : MoodConfig) (mood_score : ℚ) (user_id : String)
    (timestamp : Int) : MoodEvaluation :=
  if mood_score ≤ cfg.critical_threshold then
    { user_id, mood_score, timestamp
      alert_level := "CRITICAL", action_required := true
      message := "Critical mood detected (score: " ++ toString mood_score ++ ")"
      recommendations := criticalRecommendations }
  else if mood_score ≤ cfg.warning_threshold then
    { user_id, mood_score, timestamp
      alert_level := "WARNING", action_required := true
      message := "Low mood detected (score: " ++ toString mood_score ++ ")"
      recommendations := warningRecommendations }
  else if cfg.recovery_threshold ≤ mood_score then
    { user_id, mood_score, timestamp
      alert_level := "POSITIVE", action_required := false
      message := "Positive mood detected (score: " ++ toString mood_score ++ ")"
      recommendations := positiveRecommendations }
  else
    { user_id, mood_score, timestamp
      alert_level := "NEUTRAL", action_required := false
      message := "Neutral mood (score: " ++ toString mood_score ++ ")"
      recommendations := [] }

/-- Outcome of `MoodRules.should_send_alert`, recording which branch of the
function produced the decision (the branches are observable in the source
through their distinct log messages). -/
inductive GateDecision where
  | allow
  | denyNotRequired
  | denyCooldown
  | denyDailyCap
deriving DecidableEq

/-- Cooldown filter of rules.py 101-106: same user, same level, and the signed
time difference below the cooldown (in minutes). -/
def cooldownMatch (cfg : GateConfig) (ev : MoodEvaluation) (a : RecentAlert) :
    Bool :=
  a.user_id == ev.user_id && a.alert_level == ev.alert_level &&
    decide (ev.timestamp - a.timestamp < cfg.alert_cooldown * 60)

/-- Daily filter of rules.py 113-117: same user and same calendar date. -/
def sameDayMatch (ev : MoodEvaluation) (a : RecentAlert) : Bool :=
  a.user_id == ev.user_id && dateOf a.timestamp == dateOf ev.timestamp

/-- Translation of `MoodRules.should_send_alert` (rules.py 78-123), with the
deciding branch made explicit. -/
def shouldSendAlertDecision (cfg : GateConfig) (ev : MoodEvaluation)
    (recent_alerts : List RecentAlert) : GateDecision :=
  if !ev.action_required then .denyNotRequired
  else if ev.alert_level == "CRITICAL" then .allow
  else if !(recent_alerts.filter (cooldownMatch cfg ev)).isEmpty then
    .denyCooldown
  else if cfg.max_alerts_per_day ≤
      (recent_alerts.filter (sameDayMatch ev)).length then
    .denyDailyCap
  else .allow

/-- Boolean returned by `MoodRules.should_send_alert`. -/
def should_send_alert (cfg : GateConfig) (ev : MoodEvaluation)
    (recent_alerts : List RecentAlert) : Bool :=
  shouldSendAlertDecision cfg ev recent_alerts == .allow

end MoodRules

/-! Embedding of `src/main.py` (the alert persistence path). -/

/-- Row of the sqlite `alerts` table created by `setup_database` in main.py
(the columns written by `save_alert_to_database`). -/
structure MainDbRow where
  alert_type : String
  severity : String
  summary : String
  actions_str : String
  timestamp : String
deriving DecidableEq

/-- Translation of `save_alert_to_database` (main.py 69-93): an unconditional
INSERT of one row. -/
def save_alert_to_database (a : CandidateAlert) (db : List MainDbRow) :
    List MainDbRow :=
  db ++ [{ alert_type := a.type
           severity := a.severity
           summary := a.summary
           actions_str := String.intercalate "; " a.actions
           timestamp := a.timestamp }]

/-- Translation of the persistence loop of `process_alerts` (main.py 114-158):
every alert in the list is saved to the database, with no admission check. -/
def process_alerts (alerts : List CandidateAlert) (db : List MainDbRow) :
    List MainDbRow :=
  alerts.foldl (fun d a => save_alert_to_database a d) db

/-! Embedding of `src/notify_db.py` (the `DatabaseNotificationService` store).
The `alerts JOIN anomalies` row shape is flattened into one record, matching
the columns the SELECT of `get_undelivered_alerts` projects. -/

/-- Persisted alert row (alembic `alerts` table joined with its anomaly). -/
structure AlertRow where
  id : Nat
  alert_type : String
  message : String
  urgency : String
  created_at : Int
  severity : String
  description : String
  delivery_status : String
  sent_at : Option Int
  delivery_channel : Option String
deriving DecidableEq

/-- Lexicographic comparison of character lists by code point, the order the
SQL BINARY text collation induces on these ASCII column values. -/
def charListLt : List Char → List Char → Bool
  | _, [] => false
  | [], _ :: _ => true
  | a :: as, b :: bs =>
    if a.toNat < b.toNat then true
    else if b.toNat < a.toNat then false
    else charListLt as bs

/-- Lexicographic string comparison (see `charListLt`). -/
def stringLt (s t : String) : Bool := charListLt s.data t.data

/-- Comparator of the SQL `ORDER BY a.urgency DESC, a.created_at ASC` in
`get_undelivered_alerts`: `urgency` is a text column, so DESC is reverse
lexicographic string order. -/
def rowLe (a b : AlertRow) : Bool :=
  stringLt b.urgency a.urgency ||
    (a.urgency == b.urgency && decide (a.created_at ≤ b.created_at))

/-- Translation of `DatabaseNotificationService.get_undelivered_alerts`
(notify_db.py 70-130): select rows whose `delivery_status` is `pending` and
`created_at >= now - since_hours`, ordered by `(urgency DESC, created_at ASC)`. -/
def get_undelivered_alerts (now : Int) (since_hours : Int)
    (db : List AlertRow) : List AlertRow :=
  let cutoff := now - since_hours * 60
  sortLe rowLe (db.filter fun r =>
    r.delivery_status == "pending" && decide (cutoff ≤ r.created_at))

/-- Translation of `DatabaseNotificationService.mark_alerts_as_delivered`
(notify_db.py 132-164): returns `False` for an empty id list, otherwise
unconditionally sets `delivery_status`, `sent_at` and `delivery_channel` on
every row whose id is in the list (the UPDATE has no `delivery_status`
predicate) and returns `True`. -/
def mark_alerts_as_delivered (now : Int) (channel : String)
    (alert_ids : List Nat) (db : List AlertRow) : Bool × List AlertRow :=
  if alert_ids.isEmpty then (false, db)
  else
    (true, db.map fun r =>
      if alert_ids.contains r.id then
        { r with delivery_status := "delivered", sent_at := some now,
                 delivery_channel := some channel }
      else r)

/-- Result of `send_alerts_from_db`, extended with the trace of
`mark_alerts_as_delivered` invocations (each entry is the id batch of one
call), so that the call pattern is part of the observable behaviour. -/
structure SendOutcome where
  success : Bool
  alerts_sent : Nat
  markCalls : List (List Nat)
  db : List AlertRow
deriving DecidableEq

/-- Translation of `DatabaseNotificationService.send_alerts_from_db`
(notify_db.py 166-222) with the channel outcome abstracted as the boolean
`sendOk` returned by `notification_service.send_alerts`. -/
def send_alerts_from_db (now : Int) (since_hours : Int) (sendOk : Bool)
    (db : List AlertRow) : SendOutcome :=
  let alerts := get_undelivered_alerts now since_hours db
  if alerts.isEmpty then
    { success := true, alerts_sent := 0, markCalls := [], db }
  else if sendOk then
    let alert_ids := alerts.map (·.id)
    let marked := mark_alerts_as_delivered now "telegram" alert_ids db
    if marked.1 then
      { success := true, alerts_sent := alerts.length
        markCalls := [alert_ids], db := marked.2 }
    else
      { success := false, alerts_sent := alerts.length
        markCalls := [alert_ids], db := marked.2 }
  else
    { success := false, alerts_sent := 0, markCalls := [], db }

/-! Embedding of `src/report.py` (`_analyze_trends`). -/

/-- History entry as read by `_analyze_trends`: an optional `timestamp`
string (the sort key) and an optional `overall_risk_level`. -/
structure TrendEntry where
  timestamp : Option String
  risk : Option String
deriving DecidableEq

/-- Sort key of the Python sorted call: the `timestamp` value, with the empty
string as default. -/
def entryKey (e : TrendEntry) : String := e.timestamp.getD ""

/-- Comparator for the chronological sort of `_analyze_trends`: `a` is at or
before `b` when the key of `b` is not strictly smaller. -/
def entryLe (a b : TrendEntry) : Bool := !(stringLt (entryKey b) (entryKey a))

/-- Test of `r.get('overall_risk_level') in ['high', 'critical']`. -/
def isHighRisk (e : TrendEntry) : Bool :=
  e.risk == some "high" || e.risk == some "critical"

/-- Result of `_analyze_trends`: either one of the two early returns, or the
trend record with its half counts and magnitude. -/
inductive TrendResult where
  | insufficientData
  | noTimeData
  | result (trend direction : String)
      (firstCritical secondCritical magnitude : Nat)
deriving DecidableEq

/-- Translation of `_analyze_trends` (report.py 126-168): entries without a
timestamp are dropped, the rest are sorted chronologically, split at the
half-way point, and the counts of high/critical entries in the two halves are
compared. -/
def analyze_trends (results : List TrendEntry) : TrendResult :=
  if results.length < 2 then .insufficientData
  else
    let time_sorted := sortLe entryLe (results.filter (·.timestamp.isSome))
    if time_sorted.length < 2 then .noTimeData
    else
      let mid_point := time_sorted.length / 2
      let first_half := time_sorted.take mid_point
      let second_half := time_sorted.drop mid_point
      let first_critical := (first_half.filter isHighRisk).length
      let second_critical := (second_half.filter isHighRisk).length
      if first_critical < second_critical then
        .result "worsening" "up" first_critical second_critical
          ((second_critical : Int) - first_critical).natAbs
      else if second_critical < first_critical then
        .result "improving" "down" first_critical second_critical
          ((second_critical : Int) - first_critical).natAbs
      else
        .result "stable" "stable" first_critical second_critical
          ((second_critical : Int) - first_critical).natAbs

/-! Concrete sample data used by witnesses and counterexamples. -/

/-- Scenario snapshot of spec section 8: strongly negative sentiment, no
crisis keywords. -/
def sampleFeatures : Features :=
  { avg_sentiment := -0.9, engagement_score := 0.5, post_volume := 10
    avg_post_volume := 10, crisis_keywords := [] }

/-- Snapshot whose only firing rule is the crisis-keyword rule. -/
def crisisFeatures : Features :=
  { avg_sentiment := 0, engagement_score := 1, post_volume := 0
    avg_post_volume := 1, crisis_keywords := ["help"] }

/-- Candidate used to exhibit duplicate persistence. -/
def dupCandidate : CandidateAlert :=
  { type := "NEGATIVE_SENTIMENT", severity := "MEDIUM", timestamp := "t1"
    summary := "Negative sentiment detected: -0.6"
    actions := ["Monitor user closely for signs of distress"] }

/-- Non-critical evaluation at minute 100 used in the cooldown witness. -/
def sampleEval : MoodEvaluation :=
  { user_id := "u", mood_score := 0.3, timestamp := 100
    alert_level := "WARNING", action_required := true
    message := "Low mood detected", recommendations := [] }

/-- History holding one matching WARNING alert 50 minutes earlier. -/
def sampleRecent : RecentAlert :=
  { user_id := "u", alert_level := "WARNING", timestamp := 50 }

/-- Non-critical WARNING evaluation at minute 3000 (calendar day 2). -/
def capEval : MoodEvaluation :=
  { user_id := "u", mood_score := 0.3, timestamp := 3000
    alert_level := "WARNING", action_required := true
    message := "Low mood detected", recommendations := [] }

/-- Five same-day WARNING alerts within the two-hour cooldown of minute 3000. -/
def capRecent : List RecentAlert :=
  [{ user_id := "u", alert_level := "WARNING", timestamp := 2900 },
   { user_id := "u", alert_level := "WARNING", timestamp := 2910 },
   { user_id := "u", alert_level := "WARNING", timestamp := 2920 },
   { user_id := "u", alert_level := "WARNING", timestamp := 2930 },
   { user_id := "u", alert_level := "WARNING", timestamp := 2940 }]

/-- Five same-day LOW alerts of minute day 2, all outside any cooldown match
for a WARNING candidate. -/
def capRecentOther : List RecentAlert :=
  [{ user_id := "u", alert_level := "LOW", timestamp := 2900 },
   { user_id := "u", alert_level := "LOW", timestamp := 2910 },
   { user_id := "u", alert_level := "LOW", timestamp := 2920 },
   { user_id := "u", alert_level := "LOW", timestamp := 2930 },
   { user_id := "u", alert_level := "LOW", timestamp := 2940 }]

/-- Critical evaluation over the same capped history. -/
def capCriticalEval : MoodEvaluation :=
  { user_id := "u", mood_score := 0.1, timestamp := 3000
    alert_level := "CRITICAL", action_required := true
    message := "Critical mood detected", recommendations := [] }

/-- Pending alert row with high urgency, first in creation order. -/
def pendingHighRow : AlertRow :=
  { id := 1, alert_type := "mood_alert", message := "m1", urgency := "high"
    created_at := 0, severity := "HIGH", description := "d1"
    delivery_status := "pending", sent_at := none, delivery_channel := none }

/-- Pending alert row with medium urgency, created later. -/
def pendingMediumRow : AlertRow :=
  { id := 2, alert_type := "mood_alert", message := "m2", urgency := "medium"
    created_at := 1, severity := "MEDIUM", description := "d2"
    delivery_status := "pending", sent_at := none, delivery_channel := none }

/-- Alert row whose delivery already failed. -/
def failedRow : AlertRow :=
  { id := 1, alert_type := "mood_alert", message := "m1", urgency := "high"
    created_at := 0, severity := "HIGH", description := "d1"
    delivery_status := "failed", sent_at := none, delivery_channel := none }

/-- Two-entry history given in reverse chronological order. -/
def trendHistory : List TrendEntry :=
  [{ timestamp := some "2024-01-02", risk := some "high" },
   { timestamp := some "2024-01-01", risk := some "low" }]

/-! General helper lemmas. -/

theorem string_append_ne_empty (s t : String) (h : s ≠ "") : s ++ t ≠ "" := by
  cases s with | mk d =>
  cases t with | mk e =>
  intro hc
  have hd : d ++ e = [] := congrArg String.data hc
  rcases List.append_eq_nil.mp hd with ⟨h1, _⟩
  exact h (by simpa using congrArg String.mk h1)

/-- Membership characterisation of `RuleEngine.evaluate`: an alert is returned
iff its rule fired and it is the alert of that rule. -/
theorem mem_evaluate {cfg : RuleConfig} {now : String} {f : Features}
    {a : CandidateAlert} :
    a ∈ RuleEngine.evaluate cfg now f ↔
      (f.avg_sentiment < cfg.sentiment_threshold ∧
        a = negativeSentimentAlert now f) ∨
      (f.engagement_score < cfg.engagement_threshold ∧
        a = lowEngagementAlert now f) ∨
      (f.post_volume > f.avg_post_volume * cfg.volume_spike_threshold ∧
        a = activitySpikeAlert now f) ∨
      (f.crisis_keywords ≠ [] ∧ a = crisisKeywordsAlert now f) := by
  unfold RuleEngine.evaluate
  by_cases h1 : f.avg_sentiment < cfg.sentiment_threshold <;>
    by_cases h2 : f.engagement_score < cfg.engagement_threshold <;>
      by_cases h3 : f.post_volume > f.avg_post_volume * cfg.volume_spike_threshold <;>
        by_cases h4 : f.crisis_keywords = [] <;>
          simp [h1, h2, h3, h4]

/-- C6. For every feature snapshot, `evaluate` emits a `NEGATIVE_SENTIMENT`
candidate iff `avg_sentiment < sentiment_threshold`, with severity `HIGH`
exactly when `avg_sentiment < -0.8` and `MEDIUM` otherwise; a `LOW_ENGAGEMENT`
candidate of severity `LOW` iff `engagement_score < engagement_threshold`; and
an `ACTIVITY_SPIKE` candidate of severity `MEDIUM` iff
`post_volume > avg_post_volume * volume_spike_threshold`.  The three
conditions are independent, so several candidates may coexist in one result. -/
theorem evaluate_rule_firing_conditions (cfg : RuleConfig) (now : String)
    (f : Features) :
    ((∃ a ∈ RuleEngine.evaluate cfg now f, a.type = "NEGATIVE_SENTIMENT") ↔
      f.avg_sentiment < cfg.sentiment_threshold) ∧
    (∀ a ∈ RuleEngine.evaluate cfg now f, a.type = "NEGATIVE_SENTIMENT" →
      a.severity = if f.avg_sentiment < -0.8 then "HIGH" else "MEDIUM") ∧
    ((∃ a ∈ RuleEngine.evaluate cfg now f, a.type = "LOW_ENGAGEMENT") ↔
      f.engagement_score < cfg.engagement_threshold) ∧
    (∀ a ∈ RuleEngine.evaluate cfg now f, a.type = "LOW_ENGAGEMENT" →
      a.severity = "LOW") ∧
    ((∃ a ∈ RuleEngine.evaluate cfg now f, a.type = "ACTIVITY_SPIKE") ↔
      f.post_volume > f.avg_post_volume * cfg.volume_spike_threshold) ∧
    (∀ a ∈ RuleEngine.evaluate cfg now f, a.type = "ACTIVITY_SPIKE" →
      a.severity = "MEDIUM") := by
  refine ⟨?_, ?_, ?_, ?_, ?_, ?_⟩
  · constructor
    · rintro ⟨a, ha, hty⟩
      rcases mem_evaluate.mp ha with ⟨h, rfl⟩ | ⟨h, rfl⟩ | ⟨h, rfl⟩ | ⟨h, rfl⟩ <;>
        first | exact h | simp [negativeSentimentAlert, lowEngagementAlert,
          activitySpikeAlert, crisisKeywordsAlert] at hty
    · intro h
      exact ⟨negativeSentimentAlert now f, mem_evaluate.mpr (Or.inl ⟨h, rfl⟩), rfl⟩
  · intro a ha hty
    rcases mem_evaluate.mp ha with ⟨h, rfl⟩ | ⟨h, rfl⟩ | ⟨h, rfl⟩ | ⟨h, rfl⟩ <;>
      simp_all [negativeSentimentAlert, lowEngagementAlert,
        activitySpikeAlert, crisisKeywordsAlert]
  · constructor
    · rintro ⟨a, ha, hty⟩
      rcases mem_evaluate.mp ha with ⟨h, rfl⟩ | ⟨h, rfl⟩ | ⟨h, rfl⟩ | ⟨h, rfl⟩ <;>
        first | exact h | simp [negativeSentimentAlert, lowEngagementAlert,
          activitySpikeAlert, crisisKeywordsAlert] at hty
    · intro h
      exact ⟨lowEngagementAlert now f, mem_evaluate.mpr (Or.inr (Or.inl ⟨h, rfl⟩)), rfl⟩
  · intro a ha hty
    rcases mem_evaluate.mp ha with ⟨h, rfl⟩ | ⟨h, rfl⟩ | ⟨h, rfl⟩ | ⟨h, rfl⟩ <;>
      simp_all [negativeSentimentAlert, lowEngagementAlert,
        activitySpikeAlert, crisisKeywordsAlert]
  · constructor
    · rintro ⟨a, ha, hty⟩
      rcases mem_evaluate.mp ha with ⟨h, rfl⟩ | ⟨h, rfl⟩ | ⟨h, rfl⟩ | ⟨h, rfl⟩ <;>
        first | exact h | simp [negativeSentimentAlert, lowEngagementAlert,
          activitySpikeAlert, crisisKeywordsAlert] at hty
    · intro h
      exact ⟨activitySpikeAlert now f,
        mem_evaluate.mpr (Or.inr (Or.inr (Or.inl ⟨h, rfl⟩))), rfl⟩
  · intro a ha hty
    rcases mem_evaluate.mp ha with ⟨h, rfl⟩ | ⟨h, rfl⟩ | ⟨h, rfl⟩ | ⟨h, rfl⟩ <;>
      simp_all [negativeSentimentAlert, lowEngagementAlert,
        activitySpikeAlert, crisisKeywordsAlert]

theorem evaluate_rule_firing_conditions_witness :
    (sampleFeatures.avg_sentiment < ({} : RuleConfig).sentiment_threshold) ∧
    (∃ a ∈ RuleEngine.evaluate {} "t" sampleFeatures,
      a.type = "NEGATIVE_SENTIMENT") :=
  ⟨by norm_num [sampleFeatures],
   (evaluate_rule_firing_conditions {} "t" sampleFeatures).1.mpr
     (by norm_num [sampleFeatures])⟩

/-- C10. For every feature snapshot, `evaluate` returns candidates with
pairwise distinct alert types (hence at most one candidate per type) and at
most four candidates in total, and every candidate carries a severity from
{LOW, MEDIUM, HIGH, CRITICAL}, a non-empty summary, and a non-empty action
list. -/
theorem evaluate_candidate_invariants (cfg : RuleConfig) (now : String)
    (f : Features) :
    (RuleEngine.evaluate cfg now f).Pairwise (fun a b => a.type ≠ b.type) ∧
    (RuleEngine.evaluate cfg now f).length ≤ 4 ∧
    ∀ a ∈ RuleEngine.evaluate cfg now f,
      (a.severity = "LOW" ∨ a.severity = "MEDIUM" ∨ a.severity = "HIGH" ∨
        a.severity = "CRITICAL") ∧
      a.summary ≠ "" ∧ a.actions ≠ [] := by
  refine ⟨?_, ?_, ?_⟩
  · unfold RuleEngine.evaluate
    by_cases h1 : f.avg_sentiment < cfg.sentiment_threshold <;>
      by_cases h2 : f.engagement_score < cfg.engagement_threshold <;>
        by_cases h3 : f.post_volume > f.avg_post_volume * cfg.volume_spike_threshold <;>
          by_cases h4 : f.crisis_keywords = [] <;>
            simp [h1, h2, h3, h4, negativeSentimentAlert, lowEngagementAlert,
              activitySpikeAlert, crisisKeywordsAlert]
  · unfold RuleEngine.evaluate
    by_cases h1 : f.avg_sentiment < cfg.sentiment_threshold <;>
      by_cases h2 : f.engagement_score < cfg.engagement_threshold <;>
        by_cases h3 : f.post_volume > f.avg_post_volume * cfg.volume_spike_threshold <;>
          by_cases h4 : f.crisis_keywords = [] <;>
            simp [h1, h2, h3, h4]
  · intro a ha
    rcases mem_evaluate.mp ha with ⟨h, rfl⟩ | ⟨h, rfl⟩ | ⟨h, rfl⟩ | ⟨h, rfl⟩
    · refine ⟨?_, string_append_ne_empty _ _ (by decide), by simp [negativeSentimentAlert]⟩
      by_cases hs : f.avg_sentiment < -0.8 <;>
        simp [negativeSentimentAlert, hs]
    · exact ⟨Or.inl rfl, string_append_ne_empty _ _ (by decide),
        by simp [lowEngagementAlert]⟩
    · exact ⟨Or.inr (Or.inl rfl), string_append_ne_empty _ _ (by decide),
        by simp [activitySpikeAlert]⟩
    · exact ⟨Or.inr (Or.inr (Or.inr rfl)), string_append_ne_empty _ _ (by decide),
        by simp [crisisKeywordsAlert]⟩

theorem evaluate_candidate_invariants_witness :
    crisisKeywordsAlert "t" crisisFeatures ∈
      RuleEngine.evaluate {} "t" crisisFeatures ∧
    (((crisisKeywordsAlert "t" crisisFeatures).severity = "LOW" ∨
      (crisisKeywordsAlert "t" crisisFeatures).severity = "MEDIUM" ∨
      (crisisKeywordsAlert "t" crisisFeatures).severity = "HIGH" ∨
      (crisisKeywordsAlert "t" crisisFeatures).severity = "CRITICAL") ∧
     (crisisKeywordsAlert "t" crisisFeatures).summary ≠ "" ∧
     (crisisKeywordsAlert "t" crisisFeatures).actions ≠ []) := by
  have hm : crisisKeywordsAlert "t" crisisFeatures ∈
      RuleEngine.evaluate {} "t" crisisFeatures :=
    mem_evaluate.mpr (Or.inr (Or.inr (Or.inr ⟨by decide, rfl⟩)))
  exact ⟨hm,
    (evaluate_candidate_invariants {} "t" crisisFeatures).2.2 _ hm⟩

/-- C3 (theorem). For every snapshot with non-empty `crisis_keywords`, the
list of CRITICAL-severity candidates returned by `evaluate` is exactly the
one `CRISIS_KEYWORDS` alert; and for every history, the gate branch of
`should_send_alert` admits a CRITICAL evaluation (as produced by
`evaluate_mood_score`) before the cooldown and daily-cap checks are ever
reached. -/
theorem crisis_critical_always_admitted :
    (∀ (cfg : RuleConfig) (now : String) (f : Features),
      f.crisis_keywords ≠ [] →
      (RuleEngine.evaluate cfg now f).filter
          (fun a => a.severity == "CRITICAL") =
        [crisisKeywordsAlert now f] ∧
      (crisisKeywordsAlert now f).type = "CRISIS_KEYWORDS" ∧
      (crisisKeywordsAlert now f).severity = "CRITICAL") ∧
    (∀ (gcfg : GateConfig) (mcfg : MoodConfig) (score : ℚ) (uid : String)
      (ts : Int) (recent : List RecentAlert),
      (MoodRules.evaluate_mood_score mcfg score uid ts).alert_level =
        "CRITICAL" →
      MoodRules.shouldSendAlertDecision gcfg
        (MoodRules.evaluate_mood_score mcfg score uid ts) recent =
        MoodRules.GateDecision.allow) := by
  constructor
  · intro cfg now f hck
    refine ⟨?_, rfl, rfl⟩
    unfold RuleEngine.evaluate
    by_cases h1 : f.avg_sentiment < cfg.sentiment_threshold <;>
      by_cases h2 : f.engagement_score < cfg.engagement_threshold <;>
        by_cases h3 : f.post_volume > f.avg_post_volume * cfg.volume_spike_threshold <;>
          by_cases hs : f.avg_sentiment < -0.8 <;>
            simp [h1, h2, h3, hs, hck, negativeSentimentAlert,
              lowEngagementAlert, activitySpikeAlert, crisisKeywordsAlert,
              List.filter_append]
  · intro gcfg mcfg score uid ts recent hlvl
    unfold MoodRules.evaluate_mood_score at hlvl ⊢
    split_ifs at hlvl ⊢ <;>
      simp_all [MoodRules.shouldSendAlertDecision]

theorem crisis_critical_always_admitted_witness :
    (crisisFeatures.crisis_keywords ≠ [] ∧
      (RuleEngine.evaluate {} "t" crisisFeatures).filter
          (fun a => a.severity == "CRITICAL") =
        [crisisKeywordsAlert "t" crisisFeatures]) ∧
    ((MoodRules.evaluate_mood_score {} (1/10) "u" 0).alert_level =
        "CRITICAL" ∧
      MoodRules.shouldSendAlertDecision {}
        (MoodRules.evaluate_mood_score {} (1/10) "u" 0)
        [{ user_id := "u", alert_level := "CRITICAL", timestamp := 0 }] =
        MoodRules.GateDecision.allow) := by
  have h : (MoodRules.evaluate_mood_score {} (1/10) "u" 0).alert_level =
      "CRITICAL" := by
    unfold MoodRules.evaluate_mood_score
    rw [if_pos (by norm_num)]
  exact ⟨⟨by decide,
    (crisis_critical_always_admitted.1 {} "t" crisisFeatures (by decide)).1⟩,
   ⟨h,
    crisis_critical_always_admitted.2 {} {} (1/10) "u" 0
      [{ user_id := "u", alert_level := "CRITICAL", timestamp := 0 }] h⟩⟩

theorem process_alerts_append (alerts : List CandidateAlert)
    (db : List MainDbRow) :
    (process_alerts alerts db).length = db.length + alerts.length := by
  induction alerts generalizing db with
  | nil => simp [process_alerts]
  | cons a as ih =>
    have h : process_alerts (a :: as) db =
        process_alerts as (save_alert_to_database a db) := rfl
    rw [h, ih]
    simp [save_alert_to_database]
    omega

/-- C4 (amended theorem). The gate function `should_send_alert` does deny a
non-critical candidate through its cooldown branch whenever the history holds
a matching alert (same user, same level, within the cooldown window); but the
pipeline entry point `process_alerts` persists every candidate it is given
without consulting the gate, growing the alerts table by one row per
candidate. -/
theorem cooldown_denies_second_but_pipeline_persists :
    (∀ (gcfg : GateConfig) (ev : MoodEvaluation) (recent : List RecentAlert),
      ev.action_required = true → ev.alert_level ≠ "CRITICAL" →
      (∃ a ∈ recent, MoodRules.cooldownMatch gcfg ev a = true) →
      MoodRules.shouldSendAlertDecision gcfg ev recent =
        MoodRules.GateDecision.denyCooldown) ∧
    (∀ (alerts : List CandidateAlert) (db : List MainDbRow),
      (process_alerts alerts db).length = db.length + alerts.length) := by
  constructor
  · rintro gcfg ev recent hreq hnc ⟨a, ha, hm⟩
    have hne : recent.filter (MoodRules.cooldownMatch gcfg ev) ≠ [] := by
      intro h0
      have hmem := List.mem_filter.mpr ⟨ha, hm⟩
      rw [h0] at hmem
      exact absurd hmem (List.not_mem_nil a)
    simp [MoodRules.shouldSendAlertDecision, hreq, hnc,
      List.isEmpty_iff, hne]
  · exact process_alerts_append

/-- C4 (counterexample). Two candidates with identical
(subject, type, severity) are both persisted by `process_alerts`: the claim
that only the first is persisted fails on the pipeline, which never invokes
the gate. -/
theorem pipeline_persists_duplicate_counterexample :
    (process_alerts [dupCandidate, dupCandidate] []).map (·.alert_type) =
      ["NEGATIVE_SENTIMENT", "NEGATIVE_SENTIMENT"] ∧
    (process_alerts [dupCandidate, dupCandidate] []).length = 2 := by
  decide

theorem cooldown_denies_second_but_pipeline_persists_witness :
    (sampleEval.action_required = true ∧
      MoodRules.cooldownMatch {} sampleEval sampleRecent = true ∧
      MoodRules.shouldSendAlertDecision {} sampleEval [sampleRecent] =
        MoodRules.GateDecision.denyCooldown) ∧
    (process_alerts [dupCandidate] []).length = 0 + 1 :=
  ⟨⟨rfl, by decide,
    cooldown_denies_second_but_pipeline_persists.1 {} sampleEval
      [sampleRecent] rfl (by decide) ⟨sampleRecent, by simp, by decide⟩⟩,
   cooldown_denies_second_but_pipeline_persists.2 [dupCandidate] []⟩

/-- C5 (amended theorem). With the daily cap reached for the subject, a
non-critical candidate is always denied; the deciding branch is `daily_cap`
precisely when no history entry matches the cooldown filter (otherwise the
earlier cooldown branch already denies it).  A CRITICAL candidate is admitted
regardless of the history. -/
theorem daily_cap_denies_noncritical :
    (∀ (gcfg : GateConfig) (ev : MoodEvaluation) (recent : List RecentAlert),
      ev.action_required = true → ev.alert_level ≠ "CRITICAL" →
      gcfg.max_alerts_per_day ≤
        (recent.filter (MoodRules.sameDayMatch ev)).length →
      MoodRules.should_send_alert gcfg ev recent = false ∧
      (recent.filter (MoodRules.cooldownMatch gcfg ev) = [] →
        MoodRules.shouldSendAlertDecision gcfg ev recent =
          MoodRules.GateDecision.denyDailyCap)) ∧
    (∀ (gcfg : GateConfig) (ev : MoodEvaluation) (recent : List RecentAlert),
      ev.action_required = true → ev.alert_level = "CRITICAL" →
      MoodRules.should_send_alert gcfg ev recent = true) := by
  constructor
  · intro gcfg ev recent hreq hnc hcap
    by_cases hcd : recent.filter (MoodRules.cooldownMatch gcfg ev) = []
    · constructor
      · simp [MoodRules.should_send_alert, MoodRules.shouldSendAlertDecision,
          hreq, hnc, List.isEmpty_iff, hcd, hcap]
      · intro _
        simp [MoodRules.shouldSendAlertDecision, hreq, hnc,
          List.isEmpty_iff, hcd, hcap]
    · constructor
      · simp [MoodRules.should_send_alert, MoodRules.shouldSendAlertDecision,
          hreq, hnc, List.isEmpty_iff, hcd]
      · intro h0
        exact absurd h0 hcd
  · intro gcfg ev recent hreq hlvl
    simp [MoodRules.should_send_alert, MoodRules.shouldSendAlertDecision,
      hreq, hlvl]

/-- C5 (counterexample). With the daily cap of 5 reached, a sixth candidate
whose level matches a history entry inside the cooldown window is denied by
the cooldown branch, not the daily-cap branch, so the claimed reason
`daily_cap` does not hold for every sixth non-critical candidate. -/
theorem daily_cap_reason_counterexample :
    ({} : GateConfig).max_alerts_per_day ≤
      (capRecent.filter (MoodRules.sameDayMatch capEval)).length ∧
    MoodRules.shouldSendAlertDecision {} capEval capRecent =
      MoodRules.GateDecision.denyCooldown ∧
    MoodRules.shouldSendAlertDecision {} capEval capRecent ≠
      MoodRules.GateDecision.denyDailyCap := by
  decide

theorem daily_cap_denies_noncritical_witness :
    (({} : GateConfig).max_alerts_per_day ≤
        (capRecentOther.filter (MoodRules.sameDayMatch capEval)).length ∧
      MoodRules.should_send_alert {} capEval capRecentOther = false ∧
      MoodRules.shouldSendAlertDecision {} capEval capRecentOther =
        MoodRules.GateDecision.denyDailyCap) ∧
    MoodRules.should_send_alert {} capCriticalEval capRecentOther = true :=
  ⟨⟨by decide,
    (daily_cap_denies_noncritical.1 {} capEval capRecentOther rfl (by decide)
      (by decide)).1,
    (daily_cap_denies_noncritical.1 {} capEval capRecentOther rfl (by decide)
      (by decide)).2 (by decide)⟩,
   daily_cap_denies_noncritical.2 {} capCriticalEval capRecentOther rfl rfl⟩


/-- C1 (amended theorem). For a non-empty id set, `mark_alerts_as_delivered`
returns `true` (a boolean, not an affected-row count) on the first call and
again `true` on the repeated call, and the repeated call leaves the
`delivery_status` of every row exactly as the first call left it. -/
theorem mark_delivered_repeat (t1 t2 : Int) (ch : String) (ids : List Nat)
    (db : List AlertRow) (h : ids ≠ []) :
    (mark_alerts_as_delivered t1 ch ids db).1 = true ∧
    (mark_alerts_as_delivered t2 ch ids
      (mark_alerts_as_delivered t1 ch ids db).2).1 = true ∧
    ((mark_alerts_as_delivered t2 ch ids
        (mark_alerts_as_delivered t1 ch ids db).2).2).map
      (·.delivery_status) =
      ((mark_alerts_as_delivered t1 ch ids db).2).map (·.delivery_status) := by
  have hE : ids.isEmpty = false := by simpa [List.isEmpty_iff] using h
  refine ⟨by simp [mark_alerts_as_delivered, hE],
    by simp [mark_alerts_as_delivered, hE], ?_⟩
  simp only [mark_alerts_as_delivered, hE, Bool.false_eq_true, if_false]
  rw [List.map_map, List.map_map, List.map_map]
  apply List.map_congr_left
  intro r hr
  by_cases hc : r.id ∈ ids <;> simp [hc]

theorem mark_delivered_repeat_witness :
    ([1] : List Nat) ≠ [] ∧
    ((mark_alerts_as_delivered 10 "telegram" [1] [pendingHighRow]).1 = true ∧
     (mark_alerts_as_delivered 20 "telegram" [1]
       (mark_alerts_as_delivered 10 "telegram" [1] [pendingHighRow]).2).1 =
       true ∧
     ((mark_alerts_as_delivered 20 "telegram" [1]
         (mark_alerts_as_delivered 10 "telegram" [1] [pendingHighRow]).2).2).map
       (·.delivery_status) =
       ((mark_alerts_as_delivered 10 "telegram" [1] [pendingHighRow]).2).map
         (·.delivery_status)) :=
  ⟨by decide, mark_delivered_repeat 10 20 "telegram" [1] [pendingHighRow]
    (by decide)⟩

/-- C1 (counterexample). The second call on the same id set does not report
zero affected rows: it returns `true` again (the function returns only a
success boolean and its UPDATE has no pending-status predicate), and it
rewrites the rows (`sent_at` is overwritten), so the result rows differ from
those of the first call. -/
theorem mark_delivered_second_call_counterexample :
    (mark_alerts_as_delivered 10 "telegram" [1] [pendingHighRow]).1 = true ∧
    (mark_alerts_as_delivered 20 "telegram" [1]
      (mark_alerts_as_delivered 10 "telegram" [1] [pendingHighRow]).2).1 =
      true ∧
    (mark_alerts_as_delivered 20 "telegram" [1]
      (mark_alerts_as_delivered 10 "telegram" [1] [pendingHighRow]).2).2 ≠
      (mark_alerts_as_delivered 10 "telegram" [1] [pendingHighRow]).2 := by
  decide

/-- C2 (amended theorem). Under the single mutating operation of the store,
the status of each row either stays what it was or becomes `delivered` — there is no
other transition, but the update is unconditional, so it applies to rows of
any current status, not only `PENDING`. -/
theorem mark_delivered_status_transitions (now : Int) (ch : String)
    (ids : List Nat) (db : List AlertRow) :
    List.Forall₂
      (fun r r' => r'.delivery_status = r.delivery_status ∨
        r'.delivery_status = "delivered")
      db (mark_alerts_as_delivered now ch ids db).2 := by
  by_cases hE : ids.isEmpty
  · simp only [mark_alerts_as_delivered, hE, if_true]
    exact List.forall₂_same.mpr fun a _ => Or.inl rfl
  · simp only [mark_alerts_as_delivered, hE, Bool.false_eq_true, if_false]
    induction db with
    | nil => constructor
    | cons r rs ih =>
      rw [List.map_cons]
      refine List.Forall₂.cons ?_ ih
      by_cases hc : r.id ∈ ids <;> simp [hc]

/-- C2 (counterexample). The update predicate does not re-check the current
status: a row whose status is `failed` is moved to `delivered` by
`mark_alerts_as_delivered`, a transition the claim rules out. -/
theorem failed_row_remarked_counterexample :
    failedRow.delivery_status = "failed" ∧
    ((mark_alerts_as_delivered 0 "telegram" [1] [failedRow]).2).map
      (·.delivery_status) = ["delivered"] := by
  decide

theorem charListLt_trichotomy : ∀ as bs : List Char,
    charListLt as bs = true ∨ charListLt bs as = true ∨ as = bs
  | [], [] => Or.inr (Or.inr rfl)
  | [], _ :: _ => Or.inl rfl
  | _ :: _, [] => Or.inr (Or.inl rfl)
  | a :: as, b :: bs => by
    rcases Nat.lt_trichotomy a.toNat b.toNat with h | h | h
    · left; simp [charListLt, h]
    · have hab : a = b := Char.ext (UInt32.ext h)
      subst hab
      rcases charListLt_trichotomy as bs with h2 | h2 | h2
      · left; simp [charListLt, h2]
      · right; left; simp [charListLt, h2]
      · right; right; rw [h2]
    · right; left; simp [charListLt, h]

theorem charListLt_trans : ∀ as bs cs : List Char,
    charListLt as bs = true → charListLt bs cs = true →
    charListLt as cs = true
  | _, _, [] => by intro _ hbc; simp [charListLt] at hbc
  | as, [], _ :: _ => by intro hab; cases as <;> simp [charListLt] at hab ⊢
  | [], _ :: _, _ :: _ => by intro _ _; simp [charListLt]
  | a :: as, b :: bs, c :: cs => by
    intro hab hbc
    simp only [charListLt] at hab hbc ⊢
    by_cases h1 : a.toNat < b.toNat <;> by_cases h2 : b.toNat < c.toNat <;>
      by_cases h3 : b.toNat < a.toNat <;> by_cases h4 : c.toNat < b.toNat <;>
        simp [h1, h2, h3, h4] at hab hbc ⊢ <;>
          first
            | omega
            | exact Or.inr ⟨by omega, charListLt_trans as bs cs hab hbc⟩

theorem string_eq_of_data (s t : String) (h : s.data = t.data) : s = t := by
  cases s
  cases t
  exact congrArg String.mk h

theorem rowLe_total : ∀ a b : AlertRow, rowLe a b = true ∨ rowLe b a = true := by
  intro a b
  simp only [rowLe, stringLt, Bool.or_eq_true, Bool.and_eq_true,
    decide_eq_true_eq, beq_iff_eq]
  rcases charListLt_trichotomy a.urgency.data b.urgency.data with h | h | h
  · right; left; exact h
  · left; left; exact h
  · have he : a.urgency = b.urgency := string_eq_of_data _ _ h
    rcases le_total a.created_at b.created_at with h2 | h2
    · left; right; exact ⟨he, h2⟩
    · right; right; exact ⟨he.symm, h2⟩

theorem rowLe_trans : ∀ a b c : AlertRow, rowLe a b = true → rowLe b c = true →
    rowLe a c = true := by
  intro a b c hab hbc
  simp only [rowLe, stringLt, Bool.or_eq_true, Bool.and_eq_true,
    decide_eq_true_eq, beq_iff_eq] at hab hbc ⊢
  rcases hab with h1 | ⟨h1, h1'⟩ <;> rcases hbc with h2 | ⟨h2, h2'⟩
  · left; exact charListLt_trans _ _ _ h2 h1
  · left; rw [← congrArg String.data h2]; exact h1
  · left; rw [congrArg String.data h1]; exact h2
  · right; exact ⟨h1.trans h2, h1'.trans h2'⟩

/-- C7 (amended theorem). `get_undelivered_alerts` returns exactly (a
permutation of) the rows whose `delivery_status` is `pending` and
`created_at` inside the window, ordered by the `urgency` text column
descending (plain string order, not the CRITICAL>HIGH>MEDIUM>LOW severity
rank) and by `created_at` ascending within equal urgency. -/
theorem get_undelivered_filter_and_order (now since : Int)
    (db : List AlertRow) :
    (get_undelivered_alerts now since db).Perm
      (db.filter fun r => r.delivery_status == "pending" &&
        decide (now - since * 60 ≤ r.created_at)) ∧
    (get_undelivered_alerts now since db).Pairwise
      (fun a b => stringLt b.urgency a.urgency = true ∨
        (a.urgency = b.urgency ∧ a.created_at ≤ b.created_at)) := by
  constructor
  · exact sortLe_perm rowLe _
  · have hp := sortLe_pairwise rowLe rowLe_total rowLe_trans
      (db.filter fun r => r.delivery_status == "pending" &&
        decide (now - since * 60 ≤ r.created_at))
    refine hp.imp ?_
    intro a b hab
    simpa only [rowLe, Bool.or_eq_true, Bool.and_eq_true, decide_eq_true_eq,
      beq_iff_eq] using hab

/-- C7 (counterexample). Two pending in-window rows with severities HIGH and
MEDIUM (urgency strings "high" and "medium"): the claimed order puts HIGH
first, but the query orders by the urgency string descending, where
"medium" > "low" > "high" lexicographically, so the MEDIUM row comes back
first. -/
theorem undelivered_order_counterexample :
    pendingHighRow.delivery_status = "pending" ∧
    pendingMediumRow.delivery_status = "pending" ∧
    pendingHighRow.severity = "HIGH" ∧
    pendingMediumRow.severity = "MEDIUM" ∧
    pendingHighRow.created_at < pendingMediumRow.created_at ∧
    get_undelivered_alerts 100 24 [pendingHighRow, pendingMediumRow] =
      [pendingMediumRow, pendingHighRow] := by
  decide

/-- Every row returned by the undelivered query is pending and inside the
queried window. -/
theorem mem_get_undelivered (now since : Int) (db : List AlertRow)
    (a : AlertRow) (ha : a ∈ get_undelivered_alerts now since db) :
    a.delivery_status = "pending" ∧ now - since * 60 ≤ a.created_at := by
  have hmem : a ∈ db.filter fun r => r.delivery_status == "pending" &&
      decide (now - since * 60 ≤ r.created_at) :=
    ((sortLe_perm rowLe _).mem_iff).mp ha
  have hp := (List.mem_filter.mp hmem).2
  simp only [Bool.and_eq_true, beq_iff_eq, decide_eq_true_eq] at hp
  exact hp

/-- C8. When the channel send fails, `send_alerts_from_db` performs no mark
call and leaves the database untouched, so every alert of the batch is still
pending and the next undelivered query returns the same batch; when the send
succeeds on a non-empty batch, `mark_alerts_as_delivered` is invoked exactly
once, with the id list of the whole batch. -/
theorem send_alerts_batch_semantics (now since : Int) (sendOk : Bool)
    (db : List AlertRow) :
    (sendOk = false →
      (send_alerts_from_db now since sendOk db).db = db ∧
      (send_alerts_from_db now since sendOk db).markCalls = [] ∧
      (∀ a ∈ get_undelivered_alerts now since db,
        a.delivery_status = "pending") ∧
      get_undelivered_alerts now since
          (send_alerts_from_db now since sendOk db).db =
        get_undelivered_alerts now since db) ∧
    (sendOk = true → get_undelivered_alerts now since db ≠ [] →
      (send_alerts_from_db now since sendOk db).markCalls =
        [(get_undelivered_alerts now since db).map (·.id)] ∧
      (send_alerts_from_db now since sendOk db).success = true) := by
  constructor
  · rintro rfl
    by_cases hE : (get_undelivered_alerts now since db).isEmpty
    · refine ⟨?_, ?_, fun a ha => (mem_get_undelivered now since db a ha).1, ?_⟩ <;>
        first
          | rfl
          | simp [send_alerts_from_db, hE]
    · refine ⟨?_, ?_, fun a ha => (mem_get_undelivered now since db a ha).1, ?_⟩ <;>
        first
          | rfl
          | simp [send_alerts_from_db, hE]
  · rintro rfl hne
    have hE : (get_undelivered_alerts now since db).isEmpty = false := by
      simpa [List.isEmpty_iff] using hne
    have hidsE : ((get_undelivered_alerts now since db).map (·.id)).isEmpty =
        false := by
      cases hx : ((get_undelivered_alerts now since db).map (·.id)).isEmpty
      · rfl
      · exact absurd (by simpa using List.isEmpty_iff.mp hx) hne
    constructor <;>
      simp [send_alerts_from_db, hE, mark_alerts_as_delivered, hidsE]

/-- C8 witness scenario: one pending row, failing channel then succeeding
channel. -/
theorem send_alerts_batch_semantics_witness :
    ((send_alerts_from_db 100 24 false [pendingHighRow]).db =
        [pendingHighRow] ∧
      (send_alerts_from_db 100 24 false [pendingHighRow]).markCalls = [] ∧
      (∀ a ∈ get_undelivered_alerts 100 24 [pendingHighRow],
        a.delivery_status = "pending") ∧
      get_undelivered_alerts 100 24
          (send_alerts_from_db 100 24 false [pendingHighRow]).db =
        get_undelivered_alerts 100 24 [pendingHighRow]) ∧
    (get_undelivered_alerts 100 24 [pendingHighRow] ≠ [] ∧
      (send_alerts_from_db 100 24 true [pendingHighRow]).markCalls =
        [(get_undelivered_alerts 100 24 [pendingHighRow]).map (·.id)]) :=
  ⟨(send_alerts_batch_semantics 100 24 false [pendingHighRow]).1 rfl,
   by
    have hne : get_undelivered_alerts 100 24 [pendingHighRow] ≠ [] := by decide
    exact ⟨hne,
      ((send_alerts_batch_semantics 100 24 true [pendingHighRow]).2 rfl hne).1⟩⟩

theorem charListLt_irrefl : ∀ as : List Char, charListLt as as = false
  | [] => rfl
  | a :: as => by simp [charListLt, charListLt_irrefl as]

theorem entryLe_total : ∀ a b : TrendEntry,
    entryLe a b = true ∨ entryLe b a = true := by
  intro a b
  cases h2 : stringLt (entryKey b) (entryKey a)
  · left; simp [entryLe, h2]
  · right
    cases h1 : stringLt (entryKey a) (entryKey b)
    · simp [entryLe, h1]
    · exfalso
      simp only [stringLt] at h1 h2
      have hx := charListLt_trans _ _ _ h1 h2
      simp [charListLt_irrefl] at hx

theorem entryLe_trans : ∀ a b c : TrendEntry,
    entryLe a b = true → entryLe b c = true → entryLe a c = true := by
  intro a b c hab hbc
  simp only [entryLe, Bool.not_eq_true', stringLt] at hab hbc ⊢
  cases hca : charListLt (entryKey c).data (entryKey a).data
  · rfl
  · exfalso
    rcases charListLt_trichotomy (entryKey a).data (entryKey b).data
      with h | h | h
    · have hx := charListLt_trans _ _ _ hca h
      rw [hbc] at hx
      simp at hx
    · rw [hab] at h
      simp at h
    · rw [h] at hca
      rw [hbc] at hca
      simp at hca

/-- C9 (amended theorem). For every history with at least two entries, at
least two of which carry timestamps, `analyze_trends` arranges the
timestamped entries chronologically (a sorted permutation of them), splits at
the midpoint `length / 2` (the second half taking the extra element when the
length is odd), counts high/critical entries in each half, and reports
`worsening` when the count of the second half exceeds that of the first, `improving`
when it is lower, `stable` when equal, with magnitude the absolute
difference of the two counts. -/
theorem analyze_trends_halves (results : List TrendEntry)
    (h1 : 2 ≤ results.length)
    (h2 : 2 ≤ (results.filter (·.timestamp.isSome)).length) :
    ∃ sorted : List TrendEntry,
      sorted.Perm (results.filter (·.timestamp.isSome)) ∧
      sorted.Pairwise (fun a b => stringLt (entryKey b) (entryKey a) = false) ∧
      analyze_trends results =
        (let fc := ((sorted.take (sorted.length / 2)).filter isHighRisk).length
         let sc := ((sorted.drop (sorted.length / 2)).filter isHighRisk).length
         if fc < sc then
           TrendResult.result "worsening" "up" fc sc ((sc : Int) - fc).natAbs
         else if sc < fc then
           TrendResult.result "improving" "down" fc sc ((sc : Int) - fc).natAbs
         else
           TrendResult.result "stable" "stable" fc sc
             ((sc : Int) - fc).natAbs) := by
  refine ⟨sortLe entryLe (results.filter (·.timestamp.isSome)),
    sortLe_perm _ _, ?_, ?_⟩
  · have hp := sortLe_pairwise entryLe entryLe_total entryLe_trans
      (results.filter (·.timestamp.isSome))
    refine hp.imp ?_
    intro a b hab
    simpa only [entryLe, Bool.not_eq_true'] using hab
  · have hlen : (sortLe entryLe (results.filter (·.timestamp.isSome))).length =
        (results.filter (·.timestamp.isSome)).length :=
      (sortLe_perm _ _).length_eq
    simp only [analyze_trends]
    rw [if_neg (by omega : ¬results.length < 2)]
    rw [if_neg (by rw [hlen]; omega :
      ¬(sortLe entryLe (results.filter (·.timestamp.isSome))).length < 2)]

/-- C9 (counterexample). A non-empty single-entry history: the claimed
half-split comparison (halves `[]` and the entry, counts 0 and 1) would
report `worsening`, but `_analyze_trends` returns its `insufficient_data`
early result for any history shorter than two entries. -/
theorem analyze_trends_singleton_counterexample :
    analyze_trends [{ timestamp := some "2024-01-01", risk := some "high" }] =
      TrendResult.insufficientData ∧
    TrendResult.insufficientData ≠
      TrendResult.result "worsening" "up" 0 1 1 := by
  decide


theorem analyze_trends_halves_witness :
    2 ≤ trendHistory.length ∧
    2 ≤ (trendHistory.filter (·.timestamp.isSome)).length ∧
    (∃ sorted : List TrendEntry,
      sorted.Perm (trendHistory.filter (·.timestamp.isSome)) ∧
      sorted.Pairwise (fun a b => stringLt (entryKey b) (entryKey a) = false) ∧
      analyze_trends trendHistory =
        (let fc := ((sorted.take (sorted.length / 2)).filter isHighRisk).length
         let sc := ((sorted.drop (sorted.length / 2)).filter isHighRisk).length
         if fc < sc then
           TrendResult.result "worsening" "up" fc sc ((sc : Int) - fc).natAbs
         else if sc < fc then
           TrendResult.result "improving" "down" fc sc ((sc : Int) - fc).natAbs
         else
           TrendResult.result "stable" "stable" fc sc
             ((sc : Int) - fc).natAbs)) :=
  ⟨by decide, by decide,
   analyze_trends_halves trendHistory (by decide) (by decide)⟩

end MoodSentinel
